import Mathlib

/-
Verification of the core of the google-ads-mcp server.

The embedding covers the two source files:
  * src/ads_mcp/tools/search.py — the GAQL query builder inside `search`,
    the catalog loader `_load_resources`, and the two-tier resource lookup
    `get_resource_fields`;
  * src/ads_mcp/utils.py — the wire-value normalizer `format_output_value`
    and the row projector `format_output_row`.

Python runtime values that flow through the normalizer are modelled by the
inductive type `PyVal`; Python string primitives used by the code
(substring test `in`, `str.split`) are given executable char-list
implementations so that all definitions evaluate on concrete inputs.
-/

namespace AdsMcp

/-- Char-list helper: `leadsWith needle hay` holds when `needle` occurs at
the very start of `hay` (the building block of the substring test). -/
def leadsWith : List Char → List Char → Bool
  | [], _ => true
  | _ :: _, [] => false
  | a :: as, b :: bs => a == b && leadsWith as bs

/-- Char-list helper: `occursIn needle hay` holds when `needle` occurs as a
contiguous run somewhere in `hay`; the empty needle occurs in any list. -/
def occursIn (needle : List Char) : List Char → Bool
  | [] => needle.isEmpty
  | c :: rest => leadsWith needle (c :: rest) || occursIn needle rest

/-- Python's substring operator: `strContains hay needle` is the value of
the Python expression `needle in hay` for strings, as used by the partial
match in `get_resource_fields` (src/ads_mcp/tools/search.py:138). -/
def strContains (hay needle : String) : Bool :=
  occursIn needle.data hay.data

/-- Char-list helper splitting on a single separator character; every
occurrence of the separator starts a new group, and the result always has
one more group than there are separators. -/
def splitChars (sep : Char) : List Char → List (List Char)
  | [] => [[]]
  | c :: rest =>
    let r := splitChars sep rest
    if c == sep then [] :: r
    else
      match r with
      | [] => [[c]]
      | g :: gs => (c :: g) :: gs

/-- Python's `s.split(sep)` for a one-character separator, as used by the
dotted attribute-path walk of the row projector. -/
def pySplit (s : String) (sep : Char) : List String :=
  (splitChars sep s.data).map String.mk

/-- A Python runtime value as seen by `format_output_value`
(src/ads_mcp/utils.py:92-119).  The constructors are the wire-value shapes
the function dispatches on:

  * `enum name code` — a proto-plus enum member; it carries both its
    symbolic name and its numeric code;
  * `message dictForm` — a proto-plus message; `dictForm` is the plain
    dictionary that the library call `proto.Message.to_dict` produces for it
    (the library conversion is external to this repository, so the message
    carries its own dictionary form);
  * `rawMessage dictForm` — a raw protobuf message; `dictForm` is likewise
    the result of the library call
    `MessageToDict(value, preserving_proto_field_name=True)`;
  * `str`, `bytes`, `int`, `float`, `bool`, `none` — the scalars of the
    isinstance tuple `(str, bytes, int, float, bool, type(None))`; the
    `float` payload is an opaque bit pattern, since the code only passes
    floats through unchanged;
  * `list items` — a Python list or repeated container, whose iteration
    yields `items` in order;
  * `dict entries` — a plain Python mapping with string keys; iterating it
    yields its keys in insertion order;
  * `nonIterable tag` — any other object, on which iteration raises
    `TypeError`. -/
inductive PyVal where
  | enum (name : String) (code : Int)
  | message (dictForm : List (String × PyVal))
  | rawMessage (dictForm : List (String × PyVal))
  | str (s : String)
  | bytes (bs : List Nat)
  | int (n : Int)
  | float (bits : Nat)
  | bool (b : Bool)
  | none
  | list (items : List PyVal)
  | dict (entries : List (String × PyVal))
  | nonIterable (tag : Nat)

mutual

/-- Embeds `format_output_value` (src/ads_mcp/utils.py:92-119).  The match
arms reproduce the isinstance dispatch in source order: proto-plus enum,
proto-plus message, raw protobuf message, the scalar tuple, then the
iterable fallback wrapped in `try/except TypeError`.  Iterating a plain
Python mapping yields its keys (strings here), so the `dict` arm produces
the recursively normalized key sequence; a string normalizes to itself via
the scalar arm, which the `dict` arm inlines.  A `nonIterable` value makes
iteration raise `TypeError`, which the except-arm turns into returning the
value unchanged. -/
def format_output_value : PyVal → PyVal
  | .enum name _ => .str name
  | .message d => .dict d
  | .rawMessage d => .dict d
  | .str s => .str s
  | .bytes bs => .bytes bs
  | .int n => .int n
  | .float x => .float x
  | .bool b => .bool b
  | .none => .none
  | .list items => .list (format_each items)
  | .dict entries => .list (entries.map (fun e => PyVal.str e.1))
  | .nonIterable t => .nonIterable t

/-- The list comprehension `[format_output_value(item) for item in value]`
of the iterable fallback (src/ads_mcp/utils.py:117). -/
def format_each : List PyVal → List PyVal
  | [] => []
  | v :: vs => format_output_value v :: format_each vs

end

/-- Python's `isinstance(value, proto.Enum)`. -/
def is_enum : PyVal → Bool
  | .enum _ _ => true
  | _ => false

/-- Python's `isinstance(value, proto.Message)`. -/
def is_message : PyVal → Bool
  | .message _ => true
  | _ => false

/-- Python's `isinstance(value, RawProtobufMessage)`. -/
def is_raw_message : PyVal → Bool
  | .rawMessage _ => true
  | _ => false

/-- Python's `isinstance(value, (str, bytes, int, float, bool, type(None)))`. -/
def is_scalar : PyVal → Bool
  | .str _ => true
  | .bytes _ => true
  | .int _ => true
  | .float _ => true
  | .bool _ => true
  | .none => true
  | _ => false

/-- Whether the iterable fallback succeeds in iterating the value: true for
lists/repeated containers and plain mappings, false for values on which
iteration raises `TypeError` (enum/message/scalar values never reach the
fallback because an earlier isinstance arm catches them). -/
def is_iterable : PyVal → Bool
  | .list _ => true
  | .dict _ => true
  | _ => false

/-- Modelled from the spec: one step of dotted attribute-path resolution.
The function `get_nested_attr` that `format_output_row` calls is imported
from the external google-ads library and is not part of this repository's
sources, so it is modelled from spec section 9 ("Dynamic attribute-path
resolution ... returning a null-equivalent on any missing segment rather
than raising") and section 4.4: attribute access on a message resolves the
named field, and a missing name yields the null value. -/
def getattr_or_none (v : PyVal) (name : String) : PyVal :=
  match v with
  | .message d =>
    match d.lookup name with
    | some x => x
    | Option.none => PyVal.none
  | .rawMessage d =>
    match d.lookup name with
    | some x => x
    | Option.none => PyVal.none
  | _ => PyVal.none

/-- Modelled from the spec: `get_nested_attr(row, attr)` of the external
google-ads library, i.e. the dotted-path walk `functools.reduce(getattr,
attr.split("."), row)`, with the spec's null-on-missing-segment behavior
(spec sections 4.4 and 9). -/
def get_nested_attr (row : PyVal) (attr : String) : PyVal :=
  (pySplit attr '.').foldl getattr_or_none row

/-- Embeds `format_output_row` (src/ads_mcp/utils.py:122-126): the dict
comprehension keyed by each attribute path of the field mask, with the
resolved value passed through the normalizer.  Field-mask paths are
distinct, so the produced mapping is modelled as the association list in
mask order. -/
def format_output_row (row : PyVal) (attributes : List String) : List (String × PyVal) :=
  attributes.map (fun attr => (attr, format_output_value (get_nested_attr row attr)))

/-- One record of gaql_resources.json as consumed by
`get_resource_fields`: the resource name under the "resource" key plus the
field lists described in spec section 3 (ResourceSchema). -/
structure ResourceEntry where
  resource : String
  selectable : List String
  filterable : List String
  sortable : List String
deriving DecidableEq

/-- The possible outcomes of `open` plus `json.load` on the catalog file,
the two failure shapes being exactly the exceptions that `_load_resources`
catches (`FileNotFoundError`, `json.JSONDecodeError`). -/
inductive LoadOutcome where
  | ok (data : List ResourceEntry)
  | fileNotFound
  | malformedContent
deriving DecidableEq

/-- Embeds `_load_resources` (src/ads_mcp/tools/search.py:72-79) as a
function of the file-read outcome: a successful parse is returned as-is,
and both caught exceptions are logged and collapsed to the empty list. -/
def _load_resources : LoadOutcome → List ResourceEntry
  | .ok d => d
  | .fileNotFound => []
  | .malformedContent => []

/-- Python's repr of a list of strings, as interpolated by the f-string of
the partial-match payload (e.g. [\x27campaign\x27, \x27ad_group\x27]);
resource names contain no quote characters, for which Python repr is
exactly this single-quoted form. -/
def pyReprStrList (names : List String) : String :=
  "[" ++ String.intercalate ", " (names.map (fun s => "\x27" ++ s ++ "\x27")) ++ "]"

/-- The partial-match error message of `get_resource_fields`
(src/ads_mcp/tools/search.py:140-142). -/
def suggestionsMsg (resource : String) (names : List String) : String :=
  "Resource \x27" ++ resource ++ "\x27 not found. Did you mean one of: " ++
    pyReprStrList names ++ "?"

/-- The generic not-found error message of `get_resource_fields`
(src/ads_mcp/tools/search.py:144-146). -/
def genericNotFoundMsg (resource : String) : String :=
  "Resource \x27" ++ resource ++
    "\x27 not found. Use the search tool description to see available resource names."

/-- The shape of a `get_resource_fields` result: either a catalog record
returned unchanged, or a payload `{"error": msg}` carrying one of the two
error messages. -/
inductive LookupResult where
  | entry (r : ResourceEntry)
  | errorPayload (msg : String)
deriving DecidableEq

/-- Embeds `get_resource_fields` (src/ads_mcp/tools/search.py:123-146),
abstracted over the loaded catalog: the for-loop returns the first record
whose "resource" value equals the input; otherwise records whose name
contains the input as a substring are collected, and a non-empty match list
produces the suggestion payload naming the first ten matches; otherwise the
generic payload is returned. -/
def get_resource_fields (resources : List ResourceEntry) (resource : String) : LookupResult :=
  match resources.find? (fun r => r.resource == resource) with
  | some r => .entry r
  | Option.none =>
    let candidates := resources.filter (fun r => strContains r.resource resource)
    if candidates ≠ [] then
      .errorPayload (suggestionsMsg resource ((candidates.take 10).map (fun r => r.resource)))
    else
      .errorPayload (genericNotFoundMsg resource)

/-- The `limit` argument of `search`: Python type `int | str` with default
`None`. -/
inductive Limit where
  | none
  | int (n : Int)
  | str (s : String)
deriving DecidableEq

/-- Python truthiness of the `limit` value, deciding `if limit:` —
`None` and `0` and the empty string are falsy, everything else truthy. -/
def Limit.truthy : Limit → Bool
  | .none => false
  | .int n => n != 0
  | .str s => s != ""

/-- Python's `str(limit)` as interpolated by the f-string of the LIMIT
clause; `str` of an integer is its decimal representation. -/
def Limit.render : Limit → String
  | .none => "None"
  | .int n => toString n
  | .str s => s

/-- The arguments of `search` (src/ads_mcp/tools/search.py:23-30) that the
query builder consumes.  The Python defaults `conditions=None` and
`orderings=None` are truthiness-equivalent to the empty list, which is how
absent values are modelled. -/
structure SearchRequest where
  customer_id : String
  fields : List String
  resource : String
  conditions : List String
  orderings : List String
  limit : Limit

/-- Embeds the query construction of `search`
(src/ads_mcp/tools/search.py:45-56): the parts list starts with the SELECT
clause, each optional clause is appended when its source value is truthy,
and the parts are joined with the empty separator. -/
def build_query (req : SearchRequest) : String :=
  let query_parts : List String :=
    ["SELECT " ++ String.intercalate "," req.fields ++ " FROM " ++ req.resource]
  let query_parts : List String :=
    if req.conditions ≠ [] then
      query_parts ++ [" WHERE " ++ String.intercalate " AND " req.conditions]
    else query_parts
  let query_parts : List String :=
    if req.orderings ≠ [] then
      query_parts ++ [" ORDER BY " ++ String.intercalate "," req.orderings]
    else query_parts
  let query_parts : List String :=
    if req.limit.truthy then
      query_parts ++ [" LIMIT " ++ req.limit.render]
    else query_parts
  String.join query_parts

/-- The always-present first clause of the built query. -/
def select_clause (req : SearchRequest) : String :=
  "SELECT " ++ String.intercalate "," req.fields ++ " FROM " ++ req.resource

/-- The optional WHERE clause: present exactly when `conditions` is
truthy, with the conditions joined verbatim by " AND ". -/
def where_clause (req : SearchRequest) : String :=
  if req.conditions ≠ [] then " WHERE " ++ String.intercalate " AND " req.conditions else ""

/-- The optional ORDER BY clause: present exactly when `orderings` is
truthy. -/
def order_by_clause (req : SearchRequest) : String :=
  if req.orderings ≠ [] then " ORDER BY " ++ String.intercalate "," req.orderings else ""

/-- The optional LIMIT clause: present exactly when `limit` is truthy. -/
def limit_clause (req : SearchRequest) : String :=
  if req.limit.truthy then " LIMIT " ++ req.limit.render else ""

/-- The query with everything but the LIMIT clause. -/
def query_sans_limit (req : SearchRequest) : String :=
  select_clause req ++ where_clause req ++ order_by_clause req


/-- A concrete plain-SELECT request used to instantiate the query-builder
claims. -/
def sampleSelectReq : SearchRequest :=
  ⟨"1234567890", ["campaign.id", "campaign.name"], "campaign", [], [], Limit.none⟩

/-- A concrete request with two conditions. -/
def sampleWhereReq : SearchRequest :=
  ⟨"1234567890", ["x"], "t", ["x=1", "y=2"], [], Limit.none⟩

/-- A concrete request with limit 5. -/
def sampleLimitReq : SearchRequest :=
  ⟨"1234567890", ["x"], "t", [], [], Limit.int 5⟩

/-- A concrete response row holding campaign.name = "Summer Sale". -/
def sampleRow : PyVal :=
  .message [("campaign", .message [("name", .str "Summer Sale")])]

/-- A field mask with one present path and one absent path. -/
def sampleMask : List String := ["campaign.name", "campaign.id"]

/-- A concrete catalog record for the campaign resource. -/
def campaignEntry : ResourceEntry :=
  ⟨"campaign", ["campaign.id", "campaign.name"], ["campaign.id"], ["campaign.name"]⟩

/-- A concrete catalog record whose name contains "campaign". -/
def campaignBudgetEntry : ResourceEntry :=
  ⟨"campaign_budget", ["campaign_budget.id"], ["campaign_budget.id"], []⟩

/-- A concrete catalog record unrelated to campaigns. -/
def adGroupEntry : ResourceEntry :=
  ⟨"ad_group", ["ad_group.id"], ["ad_group.id"], []⟩

/-- A concrete three-record catalog. -/
def sampleCatalog : List ResourceEntry := [campaignEntry, campaignBudgetEntry, adGroupEntry]

theorem format_each_eq_map (l : List PyVal) : format_each l = l.map format_output_value := by
  induction l with
  | nil => rfl
  | cons v vs ih => simp [format_each, ih]

theorem format_scalar_id (v : PyVal) (h : is_scalar v = true) : format_output_value v = v := by
  cases v <;> simp_all [is_scalar, format_output_value]

theorem occursIn_nil_needle (l : List Char) : occursIn [] l = true := by
  cases l <;> simp [occursIn, leadsWith, List.isEmpty]

theorem strContains_empty_needle (s : String) : strContains s "" = true :=
  occursIn_nil_needle s.data

theorem build_query_clauses (req : SearchRequest) :
    build_query req =
      select_clause req ++ where_clause req ++ order_by_clause req ++ limit_clause req := by
  unfold build_query select_clause where_clause order_by_clause limit_clause
  by_cases hc : req.conditions = [] <;> by_cases ho : req.orderings = [] <;>
    by_cases hl : req.limit.truthy = true <;>
      simp [hc, ho, hl, String.join, String.append_assoc, String.append_empty,
        String.empty_append]



/-- C1: for every request with non-empty fields and non-empty resource, the
built query is exactly the clause "SELECT <fields joined by ","> FROM
<resource>" — a single space before FROM, fields joined by a bare comma —
followed by the optional WHERE, ORDER BY and LIMIT clauses in that fixed
order, each clause beginning with its single leading space. -/
theorem c1_select_head (req : SearchRequest)
    (hfields : req.fields ≠ []) (hresource : req.resource ≠ "") :
    build_query req =
      ("SELECT " ++ String.intercalate "," req.fields ++ " FROM " ++ req.resource) ++
        where_clause req ++ order_by_clause req ++ limit_clause req :=
  build_query_clauses req

/-- Witness for C1 at a concrete request with two fields. -/
theorem c1_witness :
    build_query sampleSelectReq =
      ("SELECT " ++ String.intercalate "," sampleSelectReq.fields ++ " FROM " ++
          sampleSelectReq.resource) ++
        where_clause sampleSelectReq ++ order_by_clause sampleSelectReq ++
        limit_clause sampleSelectReq :=
  c1_select_head sampleSelectReq (by decide) (by decide)

/-- C2: the built query carries a WHERE clause exactly when `conditions` is
non-empty, and the clause is " WHERE " followed by the conditions joined
verbatim by " AND " with no escaping; in particular
conditions=["x=1","y=2"] yields "... WHERE x=1 AND y=2". -/
theorem c2_where_verbatim :
    (∀ req : SearchRequest,
        build_query req =
          select_clause req ++ where_clause req ++ order_by_clause req ++ limit_clause req ∧
        (req.conditions ≠ [] →
            where_clause req = " WHERE " ++ String.intercalate " AND " req.conditions) ∧
        (req.conditions = [] → where_clause req = "")) ∧
    build_query sampleWhereReq = "SELECT x FROM t WHERE x=1 AND y=2" := by
  refine ⟨fun req => ⟨build_query_clauses req, fun h => ?_, fun h => ?_⟩, by decide⟩
  · simp [where_clause, h]
  · simp [where_clause, h]

/-- Witness for C2 at the concrete two-condition request. -/
theorem c2_witness :
    where_clause sampleWhereReq =
      " WHERE " ++ String.intercalate " AND " sampleWhereReq.conditions ∧
    build_query sampleWhereReq = "SELECT x FROM t WHERE x=1 AND y=2" :=
  ⟨(c2_where_verbatim.1 sampleWhereReq).2.1 (by decide), c2_where_verbatim.2⟩

/-- C3: the LIMIT clause is appended exactly when the limit value is
Python-truthy: limit=0 yields no LIMIT clause, limit=5 appends " LIMIT 5",
and the numeric string limit="10" appends " LIMIT 10". -/
theorem c3_limit_truthiness (req : SearchRequest) :
    (req.limit.truthy = false → build_query req = query_sans_limit req) ∧
    (req.limit.truthy = true →
        build_query req = query_sans_limit req ++ (" LIMIT " ++ req.limit.render)) ∧
    (req.limit = Limit.int 0 → build_query req = query_sans_limit req) ∧
    (req.limit = Limit.int 5 → build_query req = query_sans_limit req ++ " LIMIT 5") ∧
    (req.limit = Limit.str "10" → build_query req = query_sans_limit req ++ " LIMIT 10") := by
  have hb := build_query_clauses req
  refine ⟨fun h => ?_, fun h => ?_, fun h => ?_, fun h => ?_, fun h => ?_⟩
  · rw [hb]; simp [limit_clause, h, query_sans_limit, String.append_empty]
  · rw [hb]; simp [limit_clause, h, query_sans_limit, String.append_assoc]
  · rw [hb]; simp [limit_clause, Limit.truthy, h, query_sans_limit, String.append_empty]
  · have h5 : " LIMIT " ++ toString (5 : Int) = " LIMIT 5" := rfl
    rw [hb]; simp [limit_clause, Limit.truthy, Limit.render, h, query_sans_limit,
      String.append_assoc, h5]
  · have h10 : " LIMIT " ++ "10" = " LIMIT 10" := rfl
    rw [hb]; simp [limit_clause, Limit.truthy, Limit.render, h, query_sans_limit,
      String.append_assoc, h10]

/-- Witness for C3 at the concrete limit-5 request. -/
theorem c3_witness :
    build_query sampleLimitReq = query_sans_limit sampleLimitReq ++ " LIMIT 5" :=
  (c3_limit_truthiness sampleLimitReq).2.2.2.1 rfl

/-- C4: a value recognized by no isinstance arm and whose iteration raises
TypeError is returned unchanged by the normalizer — the except-arm makes
the (total) normalization pass such values through rather than raising. -/
theorem c4_catch_all (v : PyVal)
    (h1 : is_enum v = false) (h2 : is_message v = false)
    (h3 : is_raw_message v = false) (h4 : is_scalar v = false)
    (h5 : is_iterable v = false) :
    format_output_value v = v := by
  cases v <;> simp_all [is_enum, is_message, is_raw_message, is_scalar, is_iterable,
    format_output_value]

/-- Witness for C4 at a concrete non-iterable value. -/
theorem c4_witness :
    is_iterable (PyVal.nonIterable 7) = false ∧
    format_output_value (PyVal.nonIterable 7) = PyVal.nonIterable 7 :=
  ⟨rfl, c4_catch_all (PyVal.nonIterable 7) rfl rfl rfl rfl rfl⟩

/-- C5: the row projector keys its output mapping by the literal
attribute-path strings of the mask, in mask order, and any path whose
nested attribute is missing on the row resolves to the null value — which
the normalizer passes through — so the projected pair carries null and no
error is raised. -/
theorem c5_row_projection (row : PyVal) (attrs : List String) :
    (format_output_row row attrs).map Prod.fst = attrs ∧
    (∀ attr ∈ attrs, get_nested_attr row attr = PyVal.none →
        (attr, PyVal.none) ∈ format_output_row row attrs) := by
  constructor
  · induction attrs with
    | nil => rfl
    | cons a as ih => simpa [format_output_row] using ih
  · intro attr ha h
    simp only [format_output_row]
    have hv : PyVal.none = format_output_value (get_nested_attr row attr) := by
      simp [h, format_output_value]
    rw [hv]
    exact List.mem_map_of_mem _ ha

/-- Witness for C5 at the concrete row and mask: "campaign.id" is absent
on the row and projects to null. -/
theorem c5_witness :
    (format_output_row sampleRow sampleMask).map Prod.fst = sampleMask ∧
    ("campaign.id", PyVal.none) ∈ format_output_row sampleRow sampleMask :=
  ⟨(c5_row_projection sampleRow sampleMask).1,
   (c5_row_projection sampleRow sampleMask).2 "campaign.id" (by decide) rfl⟩


/-- C6: the lookup follows the two-tier fallback exactly — an exact-name
catalog record is returned unchanged; otherwise, when some record name
contains the input as a substring, the suggestion payload names the first
up-to-10 matching record names in catalog order; otherwise the generic
not-found payload is returned. -/
theorem c6_two_tier_fallback (resources : List ResourceEntry) (resource : String) :
    ((∃ r ∈ resources, r.resource = resource) →
        ∃ r ∈ resources, r.resource = resource ∧
          get_resource_fields resources resource = LookupResult.entry r) ∧
    ((∀ r ∈ resources, r.resource ≠ resource) →
        ((∃ r ∈ resources, strContains r.resource resource = true) →
            get_resource_fields resources resource =
              LookupResult.errorPayload (suggestionsMsg resource
                (((resources.filter (fun r => strContains r.resource resource)).take 10).map
                  (fun r => r.resource)))) ∧
        ((∀ r ∈ resources, strContains r.resource resource = false) →
            get_resource_fields resources resource =
              LookupResult.errorPayload (genericNotFoundMsg resource))) := by
  constructor
  · intro hex
    have hsome : (resources.find? (fun r => r.resource == resource)).isSome := by
      rw [List.find?_isSome]
      obtain ⟨r, hr, he⟩ := hex
      exact ⟨r, hr, by simp [he]⟩
    obtain ⟨r, hfind⟩ := Option.isSome_iff_exists.mp hsome
    refine ⟨r, List.mem_of_find?_eq_some hfind, ?_, ?_⟩
    · simpa using List.find?_some hfind
    · simp [get_resource_fields, hfind]
  · intro hno
    have hfind : resources.find? (fun r => r.resource == resource) = Option.none := by
      rw [List.find?_eq_none]
      intro x hx
      simp [hno x hx]
    constructor
    · rintro ⟨r, hr, hc⟩
      have hfil : resources.filter (fun r => strContains r.resource resource) ≠ [] := by
        intro hnil
        have hfr := List.filter_eq_nil_iff.mp hnil r hr
        simp [hc] at hfr
      simp [get_resource_fields, hfind, hfil]
    · intro hnone
      have hfil : resources.filter (fun r => strContains r.resource resource) = [] := by
        rw [List.filter_eq_nil_iff]
        intro x hx
        simp [hnone x hx]
      simp [get_resource_fields, hfind, hfil]

/-- Witness for C6 on the concrete catalog: exact hit for "campaign",
suggestion payload for the genuine substring "campai", generic payload for
"zzz_no_match". -/
theorem c6_witness :
    (∃ r ∈ sampleCatalog, r.resource = "campaign" ∧
        get_resource_fields sampleCatalog "campaign" = LookupResult.entry r) ∧
    get_resource_fields sampleCatalog "campai" =
      LookupResult.errorPayload (suggestionsMsg "campai"
        (((sampleCatalog.filter (fun r => strContains r.resource "campai")).take 10).map
          (fun r => r.resource))) ∧
    get_resource_fields sampleCatalog "zzz_no_match" =
      LookupResult.errorPayload (genericNotFoundMsg "zzz_no_match") :=
  ⟨(c6_two_tier_fallback sampleCatalog "campaign").1 (by decide),
   ((c6_two_tier_fallback sampleCatalog "campai").2 (by decide)).1 (by decide),
   ((c6_two_tier_fallback sampleCatalog "zzz_no_match").2 (by decide)).2 (by decide)⟩

/-- C7: both caught load failures (missing file, malformed content)
collapse to the empty catalog instead of propagating, and with the empty
catalog every lookup, for any input string, returns the generic not-found
payload. -/
theorem c7_graceful_degradation :
    _load_resources LoadOutcome.fileNotFound = [] ∧
    _load_resources LoadOutcome.malformedContent = [] ∧
    ∀ resource : String,
      get_resource_fields (_load_resources LoadOutcome.fileNotFound) resource =
        LookupResult.errorPayload (genericNotFoundMsg resource) :=
  ⟨rfl, rfl, fun _ => rfl⟩

/-- C8: dispatch order — an enum normalizes to its symbolic name (never
its numeric code), every scalar of the isinstance tuple passes through
unchanged, and an iterable of scalars normalizes to the equal-length
sequence with identical values. -/
theorem c8_dispatch_order :
    (∀ name code, format_output_value (PyVal.enum name code) = PyVal.str name) ∧
    (∀ name code, format_output_value (PyVal.enum name code) ≠ PyVal.int code) ∧
    (∀ v, is_scalar v = true → format_output_value v = v) ∧
    (∀ items, (∀ v ∈ items, is_scalar v = true) →
        format_output_value (PyVal.list items) = PyVal.list items ∧
        (format_each items).length = items.length) := by
  refine ⟨fun name code => rfl, fun name code h => PyVal.noConfusion h, format_scalar_id, ?_⟩
  intro items hall
  have hmap : format_each items = items := by
    rw [format_each_eq_map]
    calc items.map format_output_value
        = items.map id := List.map_congr_left (fun v hv => format_scalar_id v (hall v hv))
      _ = items := items.map_id
  exact ⟨by simp [format_output_value, hmap], by rw [hmap]⟩

/-- Witness for C8 at concrete values: an enum member, a scalar, and a
two-element scalar list. -/
theorem c8_witness :
    format_output_value (PyVal.enum "ENABLED" 2) = PyVal.str "ENABLED" ∧
    format_output_value (PyVal.int 7) = PyVal.int 7 ∧
    format_output_value (PyVal.list [PyVal.str "a", PyVal.int 1]) =
      PyVal.list [PyVal.str "a", PyVal.int 1] :=
  ⟨c8_dispatch_order.1 "ENABLED" 2,
   c8_dispatch_order.2.2.1 (PyVal.int 7) rfl,
   (c8_dispatch_order.2.2.2 [PyVal.str "a", PyVal.int 1] (by decide)).1⟩

/-- C9: a plain mapping reaches the iterable fallback, which iterates its
keys, so the normalizer returns the ordered sequence of the normalized
keys and discards the values; no branch preserves a plain mapping as a
mapping, so the result is never mapping-shaped. -/
theorem c9_mapping_discards_values (entries : List (String × PyVal)) :
    format_output_value (PyVal.dict entries) =
      PyVal.list (entries.map (fun e => format_output_value (PyVal.str e.1))) ∧
    format_output_value (PyVal.dict entries) ≠ PyVal.dict entries := by
  constructor
  · simp [format_output_value]
  · intro h
    rw [show format_output_value (PyVal.dict entries) =
        PyVal.list (entries.map (fun e => PyVal.str e.1)) from rfl] at h
    exact PyVal.noConfusion h

/-- C10: with a non-empty catalog, looking up the empty string either hits
a record whose name is empty or, because the empty string is a substring
of every name, returns the suggestion payload naming the first up-to-10
catalog record names; the generic payload is unreachable. -/
theorem c10_empty_string_lookup (resources : List ResourceEntry) (h : resources ≠ []) :
    (∃ r ∈ resources, r.resource = "" ∧
        get_resource_fields resources "" = LookupResult.entry r) ∨
    get_resource_fields resources "" =
      LookupResult.errorPayload
        (suggestionsMsg "" ((resources.map (fun r => r.resource)).take 10)) := by
  cases hfind : resources.find? (fun r => r.resource == "") with
  | some r =>
    left
    refine ⟨r, List.mem_of_find?_eq_some hfind, ?_, ?_⟩
    · simpa using List.find?_some hfind
    · simp [get_resource_fields, hfind]
  | none =>
    right
    have hfil : resources.filter (fun r => strContains r.resource "") = resources :=
      List.filter_eq_self.mpr (fun r _ => strContains_empty_needle r.resource)
    simp [get_resource_fields, hfind, hfil, h, List.map_take]

/-- Witness for C10 at the concrete non-empty catalog. -/
theorem c10_witness :
    (∃ r ∈ sampleCatalog, r.resource = "" ∧
        get_resource_fields sampleCatalog "" = LookupResult.entry r) ∨
    get_resource_fields sampleCatalog "" =
      LookupResult.errorPayload
        (suggestionsMsg "" ((sampleCatalog.map (fun r => r.resource)).take 10)) :=
  c10_empty_string_lookup sampleCatalog (by decide)

end AdsMcp
